import Mathlib

/-!
Verification of the connection-lifecycle core of the `bianka` websocket
client (`src/basic/client.go`, package `basic`).

The Go code is shallowly embedded as pure Lean functions over an explicit
client-state record.  Side effects are made visible as data:

* frames written to the transport, physical closes of the transport,
  closes of the `closeChan` channel and invocations of the `onClose`
  callback are counted or recorded as traces in the state;
* log lines, handler invocations and `go wsClient.Close(t)` spawns
  produced by one loop iteration are returned as a list of `Effect`s;
* the behaviour of the external transport (dial results, the error
  returned by `conn.Close()`, send failures) and of the external codec
  (`proto.UnpackMessage`) is passed in as oracle parameters, since those
  collaborators live outside this repository.

Concurrency note: `sync.Once.Do` serializes the guarded teardown body
(the first caller runs it to completion, every other caller blocks until
it is done and then skips it), so any concurrent schedule of `Close`
calls is observationally equivalent to some sequential order of the
calls.  Sequences of `Close` calls are therefore modelled by folding the
one-call transition over a list of requested close reasons.
-/

/-- Close-reason constants of `client.go` (lines 38-48). -/
def CloseAuthFailed : Nat := 1

/-- Caller-initiated close (`CloseActively`). -/
def CloseActively : Nat := 2

/-- Close triggered by a read error (`CloseReadingConnError`). -/
def CloseReadingConnError : Nat := 3

/-- Close triggered by a received shutdown frame (`CloseReceivedShutdownMessage`). -/
def CloseReceivedShutdownMessage : Nat := 4

/-- Unknown close reason (`CloseTypeUnknown`). -/
def CloseTypeUnknown : Nat := 5

/-- gorilla/websocket frame-type constant `websocket.BinaryMessage`. -/
def websocketBinaryMessage : Nat := 2

/-- gorilla/websocket frame-type constant `websocket.CloseMessage`. -/
def websocketCloseMessage : Nat := 8

/-- gorilla/websocket frame-type constant `websocket.PingMessage`. -/
def websocketPingMessage : Nat := 9

/-- gorilla/websocket frame-type constant `websocket.PongMessage`. -/
def websocketPongMessage : Nat := 10

/-- A decoded application message (`proto.Message`): an operation code and
a raw payload, as produced by `proto.UnpackMessage`. -/
structure Message where
  operation : Nat
  payload : List Nat
deriving DecidableEq, Repr

/-- `type DispatcherHandle func(msg *proto.Message) error`.  The returned
`Option String` is the Go `error` (`none` = `nil`). -/
def DispatcherHandle : Type := Message → Option String

/-- The mutable state of a `WsClient` value.  Function-typed Go fields
(`logger`, `onClose`) are replaced by an opaque identifier resp. a
registered-flag plus an invocation trace; channels become a closed-flag
plus a close counter (`closeChan`) and a FIFO list (`msgChan`).  The
trace fields `closeFramesSent`, `connClosedCount`, `closeSignalCloseCount`
and `onCloseCalls` record the externally visible effects of teardown. -/
structure WsClientState where
  logger : Nat
  connBound : Option Nat
  msgChan : List (Option Message)
  dispatcher : Nat → Option DispatcherHandle
  authed : Bool
  hasOnClose : Bool
  onCloseCalls : List Nat
  onceDone : Bool
  closeChanClosed : Bool
  closeSignalCloseCount : Nat
  isClosed : Bool
  connClosedCount : Nat
  closeFramesSent : Nat

/-- `initDispatcherHandleMap`: a nil map argument is replaced by an empty
map (`client.go` lines 100-107). -/
def initDispatcherHandleMap (m : Option (Nat → Option DispatcherHandle)) :
    Nat → Option DispatcherHandle :=
  match m with
  | none => fun _ => none
  | some f => f

/-- `NewWsClient` (`client.go` lines 88-98): fresh queue, fresh once,
fresh close channel, dispatcher initialised via `initDispatcherHandleMap`. -/
def NewWsClient (dispatcherHandleMap : Option (Nat → Option DispatcherHandle))
    (logger : Nat) : WsClientState :=
  { logger := logger
    connBound := none
    msgChan := []
    dispatcher := initDispatcherHandleMap dispatcherHandleMap
    authed := false
    hasOnClose := false
    onCloseCalls := []
    onceDone := false
    closeChanClosed := false
    closeSignalCloseCount := 0
    isClosed := false
    connClosedCount := 0
    closeFramesSent := 0 }

/-- `WithOnClose`: registers the on-close callback. -/
def WithOnClose (s : WsClientState) : WsClientState :=
  { s with hasOnClose := true }

/-- `AuthSuccess`: sets the authenticated flag. -/
def AuthSuccess (s : WsClientState) : WsClientState :=
  { s with authed := true }

/-- `IsAuthed`. -/
def IsAuthed (s : WsClientState) : Bool :=
  s.authed

/-- `WsClient.Close` (`client.go` lines 109-127).  `physCloseResult` is
the error the transport would return from `conn.Close()`.  The graceful
close frame (`conn.WriteMessage(websocket.CloseMessage, ...)`, line 111)
is sent unconditionally, BEFORE and OUTSIDE `once.Do`; only the body of
`once.Do` (close `closeChan`, set `isClosed`, wait on `closeWait`,
physically close the connection, invoke `onClose`) is one-shot guarded.
The named return `err` is only assigned inside that body, so a call that
skips the body returns `nil`. -/
def Close (physCloseResult : Option String) (t : Nat) (s : WsClientState) :
    WsClientState × Option String :=
  let s1 := { s with closeFramesSent := s.closeFramesSent + 1 }
  if s1.onceDone then
    (s1, none)
  else
    ({ s1 with
        onceDone := true
        closeChanClosed := true
        closeSignalCloseCount := s1.closeSignalCloseCount + 1
        isClosed := true
        connClosedCount := s1.connClosedCount + 1
        onCloseCalls :=
          if s1.hasOnClose then s1.onCloseCalls ++ [t] else s1.onCloseCalls },
      physCloseResult)

/-- A sequence of `Close` calls (serialized by `sync.Once`, see the
header note), returning the final state and each call's return value. -/
def closeSeq (physCloseResult : Option String) (s : WsClientState) :
    List Nat → WsClientState × List (Option String)
  | [] => (s, [])
  | t :: rest =>
    let r := Close physCloseResult t s
    let rr := closeSeq physCloseResult r.1 rest
    (rr.1, r.2 :: rr.2)

/-- `WsClient.Reset` (`client.go` lines 129-135): fresh `closeWait`,
fresh `once`, `authed`/`isClosed` cleared, fresh `closeChan`.  The
dispatcher, logger, connection and message queue are not touched. -/
def Reset (s : WsClientState) : WsClientState :=
  { s with
      onceDone := false
      authed := false
      isClosed := false
      closeChanClosed := false }

/-- The connect loop of `WsClient.Dial` (`client.go` lines 139-147).
`oracle` models `websocket.DefaultDialer.Dial`: for each address it
yields either a connection handle or an error.  On failure the Go
multiple-assignment stores the nil connection and the error and the loop
continues; on success it stores the handle, clears the error and breaks.
The third component records the addresses actually attempted. -/
def dialLoop (oracle : String → Except String Nat) :
    List String → Option Nat → Option String → List String →
    Option Nat × Option String × List String
  | [], conn, err, attempts => (conn, err, attempts)
  | link :: rest, _, _, attempts =>
    match oracle link with
    | Except.error e => dialLoop oracle rest none (some e) (attempts ++ [link])
    | Except.ok c => (some c, none, attempts ++ [link])

/-- The message of `errors.Wrapf(err, "websocket dial fail. links:%v", links)`. -/
def dialWrapErr (links : List String) (cause : String) : String :=
  "websocket dial fail. links:" ++ String.intercalate " " links ++ ": " ++ cause

/-- `WsClient.Dial` (`client.go` lines 138-155): runs the connect loop,
wraps a surviving error naming all candidate addresses, otherwise
succeeds.  Returns the new state, the returned error and the list of
attempted addresses. -/
def Dial (oracle : String → Except String Nat) (links : List String)
    (s : WsClientState) : WsClientState × Option String × List String :=
  match dialLoop oracle links s.connBound none [] with
  | (conn, some e, attempts) =>
    ({ s with connBound := conn }, some (dialWrapErr links e), attempts)
  | (conn, none, attempts) =>
    ({ s with connBound := conn }, none, attempts)

/-- Externally visible effects of one loop iteration. -/
inductive Effect where
  | log (msg : String)
  | spawnClose (reason : Nat)
  | invokeHandler (op : Nat)
  | sendFrame (kind : Nat)
deriving DecidableEq, Repr

/-- Whether a loop iteration returns from the loop or iterates again. -/
inductive LoopOutcome where
  | exit
  | cont
deriving DecidableEq, Repr

/-- The four `select` branches of `eventLoop` (`client.go` lines 169-195):
the closed `closeChan`, the 10s auth timer, the 15s heartbeat ticker
(with the oracle result of the heartbeat send) and a ready `msgChan`. -/
inductive EventInput where
  | closeSignal
  | authTimer
  | heartbeat (sendResult : Option String)
  | queueMsg

/-- One iteration of `WsClient.eventLoop` (`client.go` lines 158-196):
close signal → return; auth timer → log and return only when not yet
authenticated; heartbeat tick → send a heartbeat, a send failure is only
logged; queued message → nil messages are skipped, otherwise the
operation code is looked up in the dispatcher, a present handler is
invoked and its error only logged, an absent code drops the message
silently. -/
def eventLoopStep (s : WsClientState) (inp : EventInput) :
    WsClientState × LoopOutcome × List Effect :=
  match inp with
  | EventInput.closeSignal => (s, LoopOutcome.exit, [])
  | EventInput.authTimer =>
    if s.authed then (s, LoopOutcome.cont, [])
    else (s, LoopOutcome.exit, [Effect.log "auth timeout"])
  | EventInput.heartbeat sendResult =>
    match sendResult with
    | some _ =>
      (s, LoopOutcome.cont,
        [Effect.log "ws send heartbeat", Effect.sendFrame websocketBinaryMessage,
          Effect.log "send heartbeat fail"])
    | none =>
      (s, LoopOutcome.cont,
        [Effect.log "ws send heartbeat", Effect.sendFrame websocketBinaryMessage])
  | EventInput.queueMsg =>
    match s.msgChan with
    | [] => (s, LoopOutcome.cont, [])
    | none :: rest => ({ s with msgChan := rest }, LoopOutcome.cont, [])
    | some m :: rest =>
      match s.dispatcher m.operation with
      | some handle =>
        match handle m with
        | some _ =>
          ({ s with msgChan := rest }, LoopOutcome.cont,
            [Effect.invokeHandler m.operation, Effect.log "handle msg fail"])
        | none =>
          ({ s with msgChan := rest }, LoopOutcome.cont,
            [Effect.invokeHandler m.operation])
      | none => ({ s with msgChan := rest }, LoopOutcome.cont, [])

/-- One `conn.ReadMessage()` result fed to the reader loop: either an
error or a frame with its gorilla frame type and raw bytes. -/
inductive ReadInput where
  | failure (e : String)
  | frame (msgType : Nat) (buf : List Nat)

/-- One iteration of `WsClient.readMessage` (`client.go` lines 198-236).
`unpack` models `proto.UnpackMessage`.  A read error triggers
`go Close(CloseReadingConnError)` unless the client is already closing; a
close frame triggers `go Close(CloseReceivedShutdownMessage)`; ping/pong
is only logged; a data frame is unpacked (a failure is only logged) and
each decoded message is appended to the queue. -/
def readMessageStep (unpack : List Nat → Except String (List Message))
    (s : WsClientState) (inp : ReadInput) :
    WsClientState × LoopOutcome × List Effect :=
  match inp with
  | ReadInput.failure _ =>
    if s.isClosed then (s, LoopOutcome.exit, [])
    else
      (s, LoopOutcome.exit,
        [Effect.log "read message fail", Effect.spawnClose CloseReadingConnError])
  | ReadInput.frame msgType buf =>
    if msgType = websocketCloseMessage then
      (s, LoopOutcome.exit,
        [Effect.log "received shutdown message",
          Effect.spawnClose CloseReceivedShutdownMessage])
    else if msgType = websocketPongMessage ∨ msgType = websocketPingMessage then
      (s, LoopOutcome.cont, [Effect.log "read message ping/pong"])
    else
      match unpack buf with
      | Except.error _ => (s, LoopOutcome.cont, [Effect.log "unpack message fail"])
      | Except.ok msgList =>
        ({ s with msgChan := s.msgChan ++ msgList.map some },
          LoopOutcome.cont, [])

/-- Runs the `go wsClient.Close(t)` goroutines spawned by a list of
effects, in order, against a state. -/
def runSpawnedCloses (physCloseResult : Option String) (s : WsClientState) :
    List Effect → WsClientState
  | [] => s
  | Effect.spawnClose t :: rest =>
    runSpawnedCloses physCloseResult (Close physCloseResult t s).1 rest
  | _ :: rest => runSpawnedCloses physCloseResult s rest

/-- A concrete dispatch table for witnesses: operation code 5 has a
handler that succeeds, operation code 7 has one that fails. -/
def testDispatcher : Nat → Option DispatcherHandle := fun op =>
  if op = 5 then some (fun _ => none)
  else if op = 7 then some (fun _ => some "boom")
  else none

/-- A freshly constructed client with an on-close callback registered. -/
def testClient : WsClientState :=
  WithOnClose (NewWsClient (some testDispatcher) 0)

/-- A concrete dial oracle for witnesses: only address `"b"` connects. -/
def testDialOracle : String → Except String Nat := fun link =>
  if link = "b" then Except.ok 7 else Except.error "refused"

/-- A concrete codec oracle for witnesses: every buffer decodes to one
message with operation code 5 and the buffer as payload. -/
def testUnpack : List Nat → Except String (List Message) := fun buf =>
  Except.ok [{ operation := 5, payload := buf }]

/-! ## Helper lemmas about `Close` -/

/-- A `Close` call on a state whose guard has already run only bumps the
frame counter and returns `nil`. -/
theorem Close_done_eq (phys : Option String) (t : Nat) (s : WsClientState)
    (h : s.onceDone = true) :
    (Close phys t s).1 = { s with closeFramesSent := s.closeFramesSent + 1 } ∧
    (Close phys t s).2 = none := by
  constructor <;> simp [Close, h]

/-- Every `Close` call sends one graceful-close frame, guard run or not. -/
theorem Close_frames_eq (phys : Option String) (t : Nat) (s : WsClientState) :
    (Close phys t s).1.closeFramesSent = s.closeFramesSent + 1 := by
  by_cases h : s.onceDone = true <;> simp [Close, h]

/-- Once the guard has run, a sequence of further `Close` calls leaves
the teardown traces untouched. -/
theorem closeSeq_done (phys : Option String) (ts : List Nat) :
    ∀ s : WsClientState, s.onceDone = true →
      (closeSeq phys s ts).1.onCloseCalls = s.onCloseCalls ∧
      (closeSeq phys s ts).1.connClosedCount = s.connClosedCount ∧
      (closeSeq phys s ts).1.closeSignalCloseCount = s.closeSignalCloseCount ∧
      (closeSeq phys s ts).1.onceDone = true := by
  induction ts with
  | nil => intro s h; exact ⟨rfl, rfl, rfl, h⟩
  | cons t rest ih =>
    intro s h
    have hstep := (Close_done_eq phys t s h).1
    have hdone : (Close phys t s).1.onceDone = true := by rw [hstep]; exact h
    have ihr := ih (Close phys t s).1 hdone
    simp only [closeSeq]
    exact ⟨by rw [ihr.1, hstep], by rw [ihr.2.1, hstep],
      by rw [ihr.2.2.1, hstep], ihr.2.2.2⟩

/-- Frame counting over a sequence of `Close` calls. -/
theorem closeSeq_frames (phys : Option String) (ts : List Nat) :
    ∀ s : WsClientState,
      (closeSeq phys s ts).1.closeFramesSent = s.closeFramesSent + ts.length := by
  induction ts with
  | nil => intro s; simp [closeSeq]
  | cons t rest ih =>
    intro s
    simp only [closeSeq, List.length_cons]
    rw [ih (Close phys t s).1, Close_frames_eq]
    omega

/-! ## C1 — the guarded teardown body runs exactly once -/

/-- C1: starting from a fresh connection lifetime (guard unarmed, empty
teardown traces, on-close callback registered), any nonempty sequence of
`Close` calls — `sync.Once` serializes concurrent ones — executes the
guarded teardown body exactly once: the close signal is closed exactly
once, the connection is physically closed exactly once, and the
`onClose` callback is invoked exactly once. -/
theorem close_teardown_exactly_once (phys : Option String) (ts : List Nat)
    (s : WsClientState) (hfresh : s.onceDone = false)
    (hcalls : s.onCloseCalls = []) (hconn : s.connClosedCount = 0)
    (hsig : s.closeSignalCloseCount = 0) (hreg : s.hasOnClose = true)
    (hne : ts ≠ []) :
    (closeSeq phys s ts).1.onCloseCalls.length = 1 ∧
    (closeSeq phys s ts).1.connClosedCount = 1 ∧
    (closeSeq phys s ts).1.closeSignalCloseCount = 1 := by
  cases ts with
  | nil => exact absurd rfl hne
  | cons t rest =>
    simp only [closeSeq]
    have hdone : (Close phys t s).1.onceDone = true := by
      simp [Close, hfresh]
    have hv1 : (Close phys t s).1.onCloseCalls = [t] := by
      simp [Close, hfresh, hreg, hcalls]
    have hv2 : (Close phys t s).1.connClosedCount = 1 := by
      simp [Close, hfresh, hconn]
    have hv3 : (Close phys t s).1.closeSignalCloseCount = 1 := by
      simp [Close, hfresh, hsig]
    have hrest := closeSeq_done phys rest (Close phys t s).1 hdone
    refine ⟨?_, ?_, ?_⟩
    · rw [hrest.1, hv1]; rfl
    · rw [hrest.2.1, hv2]
    · rw [hrest.2.2.1, hv3]

/-- Witness for C1 at a concrete client and a concrete two-call sequence. -/
theorem close_teardown_exactly_once_witness :
    (closeSeq none testClient [CloseActively, CloseReadingConnError]).1.onCloseCalls.length = 1 ∧
    (closeSeq none testClient [CloseActively, CloseReadingConnError]).1.connClosedCount = 1 ∧
    (closeSeq none testClient [CloseActively, CloseReadingConnError]).1.closeSignalCloseCount = 1 :=
  close_teardown_exactly_once none [CloseActively, CloseReadingConnError]
    testClient rfl rfl rfl rfl rfl (by simp)

/-! ## C2 — the graceful-close frame send is NOT inside the guard -/

/-- C2 counterexample: on a fresh client, two `Close` calls send TWO
graceful-close frames, refuting the claim that only the first caller of
`Close` sends the graceful-close frame.  In `client.go` the
`conn.WriteMessage(websocket.CloseMessage, ...)` on line 111 runs before
`once.Do` and therefore on every call. -/
theorem close_frame_guard_cex :
    (closeSeq none testClient [CloseActively, CloseActively]).1.closeFramesSent = 2 ∧
    (closeSeq none testClient [CloseActively, CloseActively]).1.closeFramesSent ≠ 1 := by
  have h : (closeSeq none testClient [CloseActively, CloseActively]).1.closeFramesSent = 2 := rfl
  rw [h]
  exact ⟨rfl, by omega⟩

/-- C2 amended: the graceful-close frame send (step 1) is outside the
one-shot guard, so every call to `Close` — first, later or concurrent —
sends one more graceful-close frame; only the remaining teardown steps
(close signal, wait, physical close, `onClose`) are guarded and leave no
further trace once the guard has run. -/
theorem close_frame_unguarded (phys : Option String) (ts : List Nat)
    (s : WsClientState) :
    (closeSeq phys s ts).1.closeFramesSent = s.closeFramesSent + ts.length ∧
    (s.onceDone = true →
      (closeSeq phys s ts).1.onCloseCalls = s.onCloseCalls ∧
      (closeSeq phys s ts).1.connClosedCount = s.connClosedCount ∧
      (closeSeq phys s ts).1.closeSignalCloseCount = s.closeSignalCloseCount) := by
  refine ⟨closeSeq_frames phys ts s, fun h => ?_⟩
  have hd := closeSeq_done phys ts s h
  exact ⟨hd.1, hd.2.1, hd.2.2.1⟩

/-- Witness for C2's amended theorem at a concrete state whose guard has
already run. -/
theorem close_frame_unguarded_witness :
    (closeSeq none (Close none CloseActively testClient).1 [CloseActively, CloseTypeUnknown]).1.closeFramesSent
      = (Close none CloseActively testClient).1.closeFramesSent + 2 ∧
    (closeSeq none (Close none CloseActively testClient).1 [CloseActively, CloseTypeUnknown]).1.onCloseCalls
      = (Close none CloseActively testClient).1.onCloseCalls := by
  have h := close_frame_unguarded none [CloseActively, CloseTypeUnknown]
    (Close none CloseActively testClient).1
  exact ⟨h.1, (h.2 rfl).1⟩

/-! ## C3 — the return value of `Close` -/

/-- C3 counterexample: when the physical close fails with an error, the
first of two `Close` calls returns that error but the second returns
`nil`, refuting "the second call ... returns the same result as the
first".  The named return `err` is only assigned inside the `once.Do`
body, which the second call skips. -/
theorem close_second_result_cex :
    (closeSeq (some "close fail") testClient [CloseActively, CloseActively]).2
      = [some "close fail", none] ∧
    some "close fail" ≠ (none : Option String) := by
  exact ⟨rfl, by simp⟩

/-- C3 amended: `Close` returns the physical-close error exactly when
this call is the one that runs the guarded teardown body; any call made
after the guard has run (the second of two calls in particular) returns
`nil` regardless of the first call's result.  (The "returns after the
first completes" part of the claim is the blocking behaviour of
`sync.Once.Do`, which the serialized model assumes.) -/
theorem close_return_value (phys : Option String) (t : Nat)
    (s : WsClientState) :
    (s.onceDone = false → (Close phys t s).2 = phys) ∧
    (s.onceDone = true → (Close phys t s).2 = none) := by
  constructor <;> intro h <;> simp [Close, h]

/-- Witness for C3's amended theorem: a fresh call returns the physical
close error, the following call returns `nil`. -/
theorem close_return_value_witness :
    (Close (some "close fail") CloseActively testClient).2 = some "close fail" ∧
    (Close (some "close fail") CloseActively
      (Close (some "close fail") CloseActively testClient).1).2 = none :=
  ⟨(close_return_value (some "close fail") CloseActively testClient).1 rfl,
   (close_return_value (some "close fail") CloseActively
      (Close (some "close fail") CloseActively testClient).1).2 rfl⟩

/-! ## C4 — a close frame yields reason `CloseReceivedShutdownMessage` -/

/-- C4: when the reader loop receives a protocol-level close-type frame,
the iteration exits the loop and spawns `Close(CloseReceivedShutdownMessage)`
(and no close with any other reason); running that spawned close on a
client whose guard is fresh and whose callback is registered invokes
`onClose` exactly with reason `CloseReceivedShutdownMessage` (code 4),
which differs from `CloseReadingConnError`. -/
theorem read_close_frame_shutdown_reason
    (unpack : List Nat → Except String (List Message))
    (phys : Option String) (buf : List Nat) (s : WsClientState)
    (hfresh : s.onceDone = false) (hreg : s.hasOnClose = true)
    (hcalls : s.onCloseCalls = []) :
    (readMessageStep unpack s (ReadInput.frame websocketCloseMessage buf)).2.1
      = LoopOutcome.exit ∧
    (readMessageStep unpack s (ReadInput.frame websocketCloseMessage buf)).2.2
      = [Effect.log "received shutdown message",
          Effect.spawnClose CloseReceivedShutdownMessage] ∧
    (runSpawnedCloses phys
        (readMessageStep unpack s (ReadInput.frame websocketCloseMessage buf)).1
        (readMessageStep unpack s (ReadInput.frame websocketCloseMessage buf)).2.2).onCloseCalls
      = [CloseReceivedShutdownMessage] ∧
    CloseReceivedShutdownMessage ≠ CloseReadingConnError := by
  have hstep :
      readMessageStep unpack s (ReadInput.frame websocketCloseMessage buf)
        = (s, LoopOutcome.exit,
            [Effect.log "received shutdown message",
              Effect.spawnClose CloseReceivedShutdownMessage]) := by
    simp [readMessageStep]
  rw [hstep]
  refine ⟨rfl, rfl, ?_, by simp [CloseReceivedShutdownMessage, CloseReadingConnError]⟩
  simp [runSpawnedCloses, Close, hfresh, hreg, hcalls]

/-- Witness for C4 at a concrete fresh client. -/
theorem read_close_frame_shutdown_reason_witness :
    (readMessageStep testUnpack testClient
        (ReadInput.frame websocketCloseMessage [1, 2])).2.1 = LoopOutcome.exit ∧
    (runSpawnedCloses none
        (readMessageStep testUnpack testClient
          (ReadInput.frame websocketCloseMessage [1, 2])).1
        (readMessageStep testUnpack testClient
          (ReadInput.frame websocketCloseMessage [1, 2])).2.2).onCloseCalls
      = [CloseReceivedShutdownMessage] := by
  have h := read_close_frame_shutdown_reason testUnpack none [1, 2] testClient
    rfl rfl rfl
  exact ⟨h.1, h.2.2.1⟩

/-! ## Helper lemmas about the `Dial` connect loop -/

/-- If every address before `l` fails and `l` connects, the connect loop
stops at `l` with the new handle, a cleared error, and exactly the
prefix plus `l` attempted. -/
theorem dialLoop_success (oracle : String → Except String Nat) (l : String)
    (rest : List String) (c : Nat) (hl : oracle l = Except.ok c) :
    ∀ pre : List String, (∀ a ∈ pre, ∃ e, oracle a = Except.error e) →
    ∀ (conn : Option Nat) (err : Option String) (acc : List String),
      dialLoop oracle (pre ++ l :: rest) conn err acc
        = (some c, none, acc ++ pre ++ [l]) := by
  intro pre
  induction pre with
  | nil =>
    intro _ conn err acc
    simp [dialLoop, hl]
  | cons a as ih =>
    intro hp conn err acc
    obtain ⟨e, he⟩ := hp a (by simp)
    simp only [List.cons_append, dialLoop, he, List.append_eq]
    rw [ih (fun x hx => hp x (by simp [hx])) none (some e) (acc ++ [a])]
    simp

/-- If every address fails, the connect loop ends with a nil connection,
the last error, and all addresses attempted. -/
theorem dialLoop_all_fail (oracle : String → Except String Nat) :
    ∀ links : List String, links ≠ [] →
      (∀ a ∈ links, ∃ e, oracle a = Except.error e) →
      ∀ (conn : Option Nat) (err : Option String) (acc : List String),
        ∃ e, dialLoop oracle links conn err acc = (none, some e, acc ++ links) := by
  intro links
  induction links with
  | nil => intro h; exact absurd rfl h
  | cons a as ih =>
    intro _ hall conn err acc
    obtain ⟨e, he⟩ := hall a (by simp)
    by_cases has : as = []
    · subst has
      exact ⟨e, by simp [dialLoop, he]⟩
    · obtain ⟨e2, he2⟩ :=
        ih has (fun x hx => hall x (by simp [hx])) none (some e) (acc ++ [a])
      refine ⟨e2, ?_⟩
      simp only [dialLoop, he]
      rw [he2]
      simp

/-! ## C5 — first successful candidate wins, total failure aggregates -/

/-- C5: `Dial` tries the candidates in order.  First conjunct: when every
address in a prefix fails and the next one connects, `Dial` returns no
error, binds that connection, and attempts exactly the prefix plus the
winner (later candidates are never tried).  Second conjunct: when every
candidate fails, `Dial` returns the wrapped error naming all candidate
addresses, binds no connection (`conn` is nil), and has attempted every
address. -/
theorem dial_first_success_or_aggregate :
    (∀ (oracle : String → Except String Nat) (pre : List String) (l : String)
        (rest : List String) (c : Nat) (s : WsClientState),
      (∀ a ∈ pre, ∃ e, oracle a = Except.error e) →
      oracle l = Except.ok c →
      (Dial oracle (pre ++ l :: rest) s).2.1 = none ∧
      (Dial oracle (pre ++ l :: rest) s).1.connBound = some c ∧
      (Dial oracle (pre ++ l :: rest) s).2.2 = pre ++ [l]) ∧
    (∀ (oracle : String → Except String Nat) (links : List String)
        (s : WsClientState),
      links ≠ [] →
      (∀ a ∈ links, ∃ e, oracle a = Except.error e) →
      (∃ e, (Dial oracle links s).2.1 = some (dialWrapErr links e)) ∧
      (Dial oracle links s).1.connBound = none ∧
      (Dial oracle links s).2.2 = links) := by
  constructor
  · intro oracle pre l rest c s hpre hl
    have hd := dialLoop_success oracle l rest c hl pre hpre s.connBound none []
    refine ⟨?_, ?_, ?_⟩ <;> simp [Dial, hd]
  · intro oracle links s hne hall
    obtain ⟨e, he⟩ := dialLoop_all_fail oracle links hne hall s.connBound none []
    refine ⟨⟨e, ?_⟩, ?_, ?_⟩ <;> simp [Dial, he]

/-- Witness for C5: with an oracle where only address `"b"` connects,
dialing `["a", "b", "c"]` succeeds on the second candidate without
trying the third, and dialing `["a", "a"]` fails with the aggregated
error and a nil connection. -/
theorem dial_first_success_or_aggregate_witness :
    (Dial testDialOracle ["a", "b", "c"] testClient).2.1 = none ∧
    (Dial testDialOracle ["a", "b", "c"] testClient).1.connBound = some 7 ∧
    (Dial testDialOracle ["a", "b", "c"] testClient).2.2 = ["a", "b"] ∧
    (∃ e, (Dial testDialOracle ["a", "a"] testClient).2.1
      = some (dialWrapErr ["a", "a"] e)) ∧
    (Dial testDialOracle ["a", "a"] testClient).1.connBound = none := by
  have h1 := dial_first_success_or_aggregate.1 testDialOracle ["a"] "b" ["c"] 7
    testClient (by intro a ha; simp at ha; subst ha; exact ⟨"refused", rfl⟩) rfl
  have h2 := dial_first_success_or_aggregate.2 testDialOracle ["a", "a"]
    testClient (by simp)
    (by intro a ha; simp at ha; subst ha; exact ⟨"refused", rfl⟩)
  exact ⟨h1.1, h1.2.1, by simpa using h1.2.2, h2.1, h2.2.1⟩

/-! ## C9 — `Dial` with no candidate addresses -/

/-- C9: `Dial` on an empty candidate list performs no connection attempt
(the attempted-address trace is empty), leaves the client state — in
particular the bound connection — unchanged, and returns no error, which
is indistinguishable by return value from a successful dial. -/
theorem dial_empty_links (oracle : String → Except String Nat)
    (s : WsClientState) :
    Dial oracle [] s = (s, none, []) :=
  rfl

/-! ## C6 — the authentication timer branch -/

/-- C6: when the 10-second authentication timer fires, the event loop
logs "auth timeout" and exits if `authed` is still false, and simply
continues if `AuthSuccess` ran before the timer; in both cases the
iteration leaves the client state untouched and spawns no `Close`, so
the event loop itself never initiates the teardown sequence on
authentication timeout. -/
theorem eventLoop_auth_timeout (s : WsClientState) :
    (s.authed = false →
      eventLoopStep s EventInput.authTimer
        = (s, LoopOutcome.exit, [Effect.log "auth timeout"])) ∧
    (s.authed = true →
      eventLoopStep s EventInput.authTimer = (s, LoopOutcome.cont, [])) ∧
    (eventLoopStep s EventInput.authTimer).1 = s ∧
    (∀ r, Effect.spawnClose r ∉ (eventLoopStep s EventInput.authTimer).2.2) := by
  cases hv : s.authed with
  | false =>
    refine ⟨fun _ => ?_, fun hc => absurd hc (by simp [hv]), ?_, ?_⟩
    · simp [eventLoopStep, hv]
    · simp [eventLoopStep, hv]
    · intro r; simp [eventLoopStep, hv]
  | true =>
    refine ⟨fun hc => absurd hc (by simp [hv]), fun _ => ?_, ?_, ?_⟩
    · simp [eventLoopStep, hv]
    · simp [eventLoopStep, hv]
    · intro r; simp [eventLoopStep, hv]

/-- Witness for C6 at a concrete unauthenticated and a concrete
authenticated client. -/
theorem eventLoop_auth_timeout_witness :
    eventLoopStep testClient EventInput.authTimer
      = (testClient, LoopOutcome.exit, [Effect.log "auth timeout"]) ∧
    eventLoopStep (AuthSuccess testClient) EventInput.authTimer
      = (AuthSuccess testClient, LoopOutcome.cont, []) :=
  ⟨(eventLoop_auth_timeout testClient).1 rfl,
   (eventLoop_auth_timeout (AuthSuccess testClient)).2.1 rfl⟩

/-! ## C7 — dispatch of dequeued messages -/

/-- C7: when the event loop dequeues a (non-nil) message, a handler
registered under its operation code is invoked, a handler error only
adds a log entry, and the loop continues; when no handler is registered
the message is dropped with no effect at all (no log, no error), and the
loop continues. -/
theorem eventLoop_dispatch (s : WsClientState) (m : Message)
    (rest : List (Option Message)) (hq : s.msgChan = some m :: rest) :
    (∀ handle : DispatcherHandle, s.dispatcher m.operation = some handle →
      (eventLoopStep s EventInput.queueMsg).1.msgChan = rest ∧
      (eventLoopStep s EventInput.queueMsg).2.1 = LoopOutcome.cont ∧
      Effect.invokeHandler m.operation
        ∈ (eventLoopStep s EventInput.queueMsg).2.2 ∧
      (eventLoopStep s EventInput.queueMsg).2.2
        = (if (handle m).isSome
            then [Effect.invokeHandler m.operation, Effect.log "handle msg fail"]
            else [Effect.invokeHandler m.operation])) ∧
    (s.dispatcher m.operation = none →
      (eventLoopStep s EventInput.queueMsg).1.msgChan = rest ∧
      (eventLoopStep s EventInput.queueMsg).2.1 = LoopOutcome.cont ∧
      (eventLoopStep s EventInput.queueMsg).2.2 = []) := by
  constructor
  · intro handle hd
    cases hcall : handle m <;> simp [eventLoopStep, hq, hd, hcall]
  · intro hd
    simp [eventLoopStep, hq, hd]

/-- Witness for C7: with the test dispatcher, a message with operation
code 5 reaches its handler, a message with unregistered operation code 6
is dropped with no effects. -/
theorem eventLoop_dispatch_witness :
    Effect.invokeHandler 5 ∈
      (eventLoopStep
        { testClient with msgChan := [some { operation := 5, payload := [] }] }
        EventInput.queueMsg).2.2 ∧
    (eventLoopStep
        { testClient with msgChan := [some { operation := 6, payload := [] }] }
        EventInput.queueMsg).2.2 = [] ∧
    (eventLoopStep
        { testClient with msgChan := [some { operation := 6, payload := [] }] }
        EventInput.queueMsg).2.1 = LoopOutcome.cont := by
  have h1 := (eventLoop_dispatch
    { testClient with msgChan := [some { operation := 5, payload := [] }] }
    { operation := 5, payload := [] } [] rfl).1 (fun _ => none) rfl
  have h2 := (eventLoop_dispatch
    { testClient with msgChan := [some { operation := 6, payload := [] }] }
    { operation := 6, payload := [] } [] rfl).2 rfl
  exact ⟨h1.2.2.1, h2.2.2, h2.2.1⟩

/-! ## C8 — what `Reset` rearms and what it leaves alone -/

/-- C8: `Reset` rearms the one-shot close guard, reopens (replaces) the
close signal, and clears the `authed` and `isClosed` flags, while the
dispatch table and the logger are exactly those of the old state. -/
theorem reset_rearms_close_state (s : WsClientState) :
    (Reset s).onceDone = false ∧
    (Reset s).closeChanClosed = false ∧
    (Reset s).authed = false ∧
    (Reset s).isClosed = false ∧
    (Reset s).dispatcher = s.dispatcher ∧
    (Reset s).logger = s.logger :=
  ⟨rfl, rfl, rfl, rfl, rfl, rfl⟩

/-! ## C10 — `Reset` does not touch the message queue -/

/-- C10: first conjunct: messages enqueued by a reader-loop iteration
(a data frame that unpacks successfully) are still in the queue, behind
any earlier backlog, after `Reset`.  Second conjunct: from a reset
client, the event loop dequeues such a left-over message and delivers it
to the handler registered under its operation code — the queue survives
`Reset` and is consumed by the next `Dial`/`Run` cycle. -/
theorem reset_preserves_message_queue :
    (∀ (unpack : List Nat → Except String (List Message)) (buf : List Nat)
        (msgs : List Message) (s : WsClientState),
      unpack buf = Except.ok msgs →
      (Reset (readMessageStep unpack s
          (ReadInput.frame websocketBinaryMessage buf)).1).msgChan
        = s.msgChan ++ msgs.map some) ∧
    (∀ (s : WsClientState) (m : Message) (rest : List (Option Message))
        (handle : DispatcherHandle),
      s.msgChan = some m :: rest →
      s.dispatcher m.operation = some handle →
      Effect.invokeHandler m.operation
        ∈ (eventLoopStep (Reset s) EventInput.queueMsg).2.2 ∧
      (eventLoopStep (Reset s) EventInput.queueMsg).1.msgChan = rest) := by
  constructor
  · intro unpack buf msgs s hu
    simp [readMessageStep, websocketBinaryMessage, websocketCloseMessage,
      websocketPongMessage, websocketPingMessage, hu, Reset]
  · intro s m rest handle hq hd
    have hq2 : (Reset s).msgChan = some m :: rest := by simp [Reset, hq]
    have hd2 : (Reset s).dispatcher m.operation = some handle := by
      simp [Reset, hd]
    cases hcall : handle m <;> simp [eventLoopStep, hq2, hd2, hcall]

/-- Witness for C10: a message decoded from a data frame survives
`Reset` in the queue, and a reset client delivers a queued message with
operation code 5 to its handler. -/
theorem reset_preserves_message_queue_witness :
    (Reset (readMessageStep testUnpack testClient
        (ReadInput.frame websocketBinaryMessage [9])).1).msgChan
      = testClient.msgChan ++ [{ operation := 5, payload := [9] }].map some ∧
    Effect.invokeHandler 5 ∈
      (eventLoopStep
        (Reset { testClient with
          msgChan := [some { operation := 5, payload := [9] }] })
        EventInput.queueMsg).2.2 := by
  have h1 := reset_preserves_message_queue.1 testUnpack [9]
    [{ operation := 5, payload := [9] }] testClient rfl
  have h2 := reset_preserves_message_queue.2
    { testClient with msgChan := [some { operation := 5, payload := [9] }] }
    { operation := 5, payload := [9] } [] (fun _ => none) rfl rfl
  exact ⟨h1, h2.1⟩
